import Mathlib

/-!
Shallow embedding of the client-portal authentication core
(`backend/app`): the ORM models (`User`, `SessionModel`, `AuditLog`),
the audit recorder (`log_audit_event`), the auth service
(`authenticate_user`, `refresh_access_token`, `logout_user`), the access
guard (`get_current_user`) and the user service (`update_user_profile`).

Modelling conventions:
* Timestamps are `Nat` minutes on an abstract timeline; `datetime.utcnow()`
  becomes an explicit `now` parameter, `timedelta(minutes := m)` adds `m`
  and `timedelta(days := d)` adds `d * 1440`.
* The SQLAlchemy session is a `DBConn`: a `pending` working copy of the
  store, the last `committed` snapshot, and `commits`, the ordered trace of
  snapshots persisted by each `db.commit()` call.  Queries read `pending`
  (the ORM session sees flushed object state); `commit` publishes `pending`
  and appends it to the trace.
* `passlib`'s `verify_password` and `jose`'s JWT codec are out-of-scope
  collaborators: password verification is an abstract `verify` function
  argument, minted tokens and fresh primary keys are explicit arguments,
  and `decode_token` is an abstract `decode` argument returning the claims
  payload.
* Python truthiness on optional strings (`if not user_agent`,
  `ip_address or session.ip_address`, `if refresh_token`) is modelled
  explicitly: `none` and `some ""` are falsy.
-/

/-- `users` table row (`app/models/user.py`). -/
structure User where
  id : Nat
  email : String
  username : String
  password_hash : String
  first_name : Option String
  last_name : Option String
  role : String
  is_active : Bool
  mfa_enabled : Bool
  failed_login_attempts : Nat
  locked_until : Option Nat
  preferences : String
  last_login_at : Option Nat
  deriving DecidableEq, Repr

/-- `User.is_locked`: locked iff `locked_until` is set and `utcnow() < locked_until`. -/
def User.is_locked (u : User) (now : Nat) : Bool :=
  match u.locked_until with
  | none => false
  | some t => decide (now < t)

/-- `User.full_name`: "first last" when both set, else the username. -/
def User.full_name (u : User) : String :=
  match u.first_name, u.last_name with
  | some f, some l => f ++ " " ++ l
  | _, _ => u.username

/-- `sessions` table row (`app/models/session.py`). -/
structure SessionModel where
  id : Nat
  user_id : Nat
  refresh_token : String
  ip_address : Option String
  user_agent : Option String
  device_type : String
  expires_at : Nat
  is_revoked : Bool
  created_at : Nat
  last_used_at : Nat
  deriving DecidableEq, Repr

/-- `SessionModel.is_expired`: `datetime.utcnow() > self.expires_at`. -/
def SessionModel.is_expired (s : SessionModel) (now : Nat) : Bool :=
  decide (now > s.expires_at)

/-- `SessionModel.is_valid`: `not self.is_revoked and not self.is_expired`. -/
def SessionModel.is_valid (s : SessionModel) (now : Nat) : Bool :=
  !s.is_revoked && !(s.is_expired now)

/-- `audit_log` table row (`app/models/audit_log.py`); the free-form JSON
payload is flattened to string key/value pairs. -/
structure AuditLog where
  user_id : Option Nat
  action : String
  outcome : String
  ip_address : Option String
  user_agent : Option String
  metadata : List (String × String)
  deriving DecidableEq, Repr

/-- The configuration fields of `app/core/config.py` that the auth core reads. -/
structure Settings where
  ACCESS_TOKEN_EXPIRE_MINUTES : Nat
  REFRESH_TOKEN_EXPIRE_DAYS : Nat
  MAX_FAILED_LOGIN_ATTEMPTS : Nat
  ACCOUNT_LOCKOUT_DURATION_MINUTES : Nat
  deriving DecidableEq, Repr

/-- The relational store: the three tables the auth core touches. -/
structure Store where
  users : List User
  sessions : List SessionModel
  audit_logs : List AuditLog
  deriving DecidableEq, Repr

/-- Replace the first element satisfying `p` by its image under `f`
(SQLAlchemy mutates the single object returned by `.first()`). -/
def updateFirst {α : Type} (p : α → Bool) (f : α → α) : List α → List α
  | [] => []
  | x :: xs => if p x then f x :: xs else x :: updateFirst p f xs

/-- Mutate (in the working copy) the first user satisfying `q`, replacing it by `u`. -/
def Store.setFirstUser (st : Store) (q : User → Bool) (u : User) : Store :=
  { st with users := updateFirst q (fun _ => u) st.users }

/-- Mutate (in the working copy) the first session satisfying `q`, replacing it by `s`. -/
def Store.setFirstSession (st : Store) (q : SessionModel → Bool) (s : SessionModel) : Store :=
  { st with sessions := updateFirst q (fun _ => s) st.sessions }

/-- `db.add(session_row)`. -/
def Store.addSession (st : Store) (s : SessionModel) : Store :=
  { st with sessions := st.sessions ++ [s] }

/-- `db.add(audit_row)`. -/
def Store.addAudit (st : Store) (a : AuditLog) : Store :=
  { st with audit_logs := st.audit_logs ++ [a] }

/-- A SQLAlchemy session: last committed snapshot, pending working copy,
and the ordered trace of snapshots persisted by each `db.commit()`. -/
structure DBConn where
  committed : Store
  pending : Store
  commits : List Store
  deriving DecidableEq, Repr

/-- `db.commit()`: persist the working copy and record the snapshot. -/
def DBConn.commit (c : DBConn) : DBConn :=
  { committed := c.pending, pending := c.pending, commits := c.commits ++ [c.pending] }

/-- A fresh connection over a committed store (start of a request). -/
def DBConn.fresh (st : Store) : DBConn :=
  { committed := st, pending := st, commits := [] }

/-- `raise HTTPException(status_code, detail)` payload. -/
structure HTTPError where
  status : Nat
  detail : String
  deriving DecidableEq, Repr

deriving instance DecidableEq for Except

/-- Python truthiness of an optional string: `None` and `""` are falsy. -/
def strTruthy : Option String → Bool
  | none => false
  | some s => s ≠ ""

/-- Python `a or b` on optional strings (`ip_address or session.ip_address`). -/
def pyOr (a b : Option String) : Option String :=
  if strTruthy a then a else b

/-- `log_audit_event` (`app/services/audit_service.py`): build the row,
`db.add` it and `db.commit()` — the audit write commits by itself. -/
def log_audit_event (conn : DBConn) (user_id : Option Nat) (action : String)
    (outcome : String) (ip_address user_agent : Option String)
    (metadata : List (String × String)) : AuditLog × DBConn :=
  let entry : AuditLog :=
    { user_id := user_id, action := action, outcome := outcome,
      ip_address := ip_address, user_agent := user_agent, metadata := metadata }
  let conn1 : DBConn := { conn with pending := conn.pending.addAudit entry }
  (entry, conn1.commit)

/-- Substring test on character lists (for `in`-tests on the user agent). -/
def containsSub (needle : List Char) : List Char → Bool
  | [] => needle.isPrefixOf ([] : List Char)
  | c :: cs => needle.isPrefixOf (c :: cs) || containsSub needle cs

/-- `"sub" in s` for strings. -/
def strContains (hay needle : String) : Bool :=
  containsSub needle.toList hay.toList

namespace AuthService

/-- `AuthService._detect_device_type`. -/
def detect_device_type (user_agent : Option String) : String :=
  if !strTruthy user_agent then "unknown"
  else
    let l := (user_agent.getD "").toLower
    if strContains l "mobile" || strContains l "android" || strContains l "iphone" then
      "mobile"
    else if strContains l "tablet" || strContains l "ipad" then
      "tablet"
    else
      "desktop"

/-- The `email-or-username` lookup predicate of `authenticate_user`. -/
def identMatch (email_or_username : String) (u : User) : Bool :=
  u.email == email_or_username || u.username == email_or_username

/-- `AuthService.authenticate_user` (`app/services/auth_service.py`).
`verify` is the bcrypt collaborator; `access_token` / `refresh_token` are
the JWT mints for the success path and `sid` the fresh session primary
key.  Returns the Python outcome (result or raised `HTTPException`)
together with the final connection state — commits that happened before a
raise stay persisted. -/
def authenticate_user (st : Settings) (verify : String → String → Bool) (now : Nat)
    (conn : DBConn) (email_or_username password : String)
    (ip_address user_agent : Option String)
    (access_token refresh_token : String) (sid : Nat) :
    Except HTTPError (User × String × String) × DBConn :=
  match conn.pending.users.find? (identMatch email_or_username) with
  | none =>
      let (_, conn) := log_audit_event conn none "login_failure" "failure"
        ip_address user_agent
        [("email_or_username", email_or_username), ("reason", "user_not_found")]
      (.error ⟨401, "Invalid credentials"⟩, conn)
  | some user =>
      if !user.is_active then
        let (_, conn) := log_audit_event conn (some user.id) "login_failure" "failure"
          ip_address user_agent [("email", user.email), ("reason", "account_deactivated")]
        (.error ⟨403, "Account has been deactivated"⟩, conn)
      else if user.is_locked now then
        let (_, conn) := log_audit_event conn (some user.id) "login_failure" "failure"
          ip_address user_agent [("email", user.email), ("reason", "account_locked")]
        (.error ⟨403, "Account is temporarily locked due to failed login attempts"⟩, conn)
      else if !(verify password user.password_hash) then
        let user1 := { user with failed_login_attempts := user.failed_login_attempts + 1 }
        if user1.failed_login_attempts ≥ st.MAX_FAILED_LOGIN_ATTEMPTS then
          let user2 := { user1 with
            locked_until := some (now + st.ACCOUNT_LOCKOUT_DURATION_MINUTES) }
          let conn := { conn with
            pending := conn.pending.setFirstUser (identMatch email_or_username) user2 }
          let conn := conn.commit
          let (_, conn) := log_audit_event conn (some user2.id) "account_locked" "success"
            ip_address user_agent
            [("email", user2.email), ("attempts", toString user2.failed_login_attempts),
             ("locked_until", toString (now + st.ACCOUNT_LOCKOUT_DURATION_MINUTES))]
          (.error ⟨403, "Account locked due to too many failed login attempts"⟩, conn)
        else
          let conn := { conn with
            pending := conn.pending.setFirstUser (identMatch email_or_username) user1 }
          let conn := conn.commit
          let (_, conn) := log_audit_event conn (some user1.id) "login_failure" "failure"
            ip_address user_agent
            [("email", user1.email), ("reason", "invalid_password"),
             ("attempt", toString user1.failed_login_attempts)]
          (.error ⟨401, "Invalid credentials"⟩, conn)
      else
        let user1 := { user with
          failed_login_attempts := 0, locked_until := none, last_login_at := some now }
        let conn := { conn with
          pending := conn.pending.setFirstUser (identMatch email_or_username) user1 }
        let conn := conn.commit
        let sess : SessionModel :=
          { id := sid, user_id := user1.id, refresh_token := refresh_token,
            ip_address := ip_address, user_agent := user_agent,
            device_type := detect_device_type user_agent,
            expires_at := now + st.REFRESH_TOKEN_EXPIRE_DAYS * 1440,
            is_revoked := false, created_at := now, last_used_at := now }
        let conn := { conn with pending := conn.pending.addSession sess }
        let conn := conn.commit
        let (_, conn) := log_audit_event conn (some user1.id) "login_success" "success"
          ip_address user_agent
          [("email", user1.email), ("session_id", toString sid)]
        (.ok (user1, access_token, refresh_token), conn)

/-- `AuthService.refresh_access_token` (`app/services/auth_service.py`).
`new_access_token` / `new_refresh_token` are the JWT mints and `new_sid`
the fresh session primary key. -/
def refresh_access_token (st : Settings) (now : Nat) (conn : DBConn)
    (refresh_token : String) (ip_address user_agent : Option String)
    (new_access_token new_refresh_token : String) (new_sid : Nat) :
    Except HTTPError (String × String) × DBConn :=
  match conn.pending.sessions.find? (fun s => s.refresh_token == refresh_token) with
  | none => (.error ⟨401, "Invalid refresh token"⟩, conn)
  | some session =>
      if !session.is_valid now then
        (.error ⟨401, "Refresh token has expired or been revoked"⟩, conn)
      else
        match conn.pending.users.find? (fun u => u.id == session.user_id) with
        | none => (.error ⟨401, "User not found or inactive"⟩, conn)
        | some user =>
            if !user.is_active then
              (.error ⟨401, "User not found or inactive"⟩, conn)
            else
              let session1 := { session with is_revoked := true }
              let new_session : SessionModel :=
                { id := new_sid, user_id := user.id,
                  refresh_token := new_refresh_token,
                  ip_address := pyOr ip_address session.ip_address,
                  user_agent := pyOr user_agent session.user_agent,
                  device_type := session.device_type,
                  expires_at := now + st.REFRESH_TOKEN_EXPIRE_DAYS * 1440,
                  is_revoked := false, created_at := now, last_used_at := now }
              let pend1 := conn.pending.setFirstSession
                (fun s => s.refresh_token == refresh_token) session1
              let conn := { conn with pending := pend1 }
              let conn := { conn with pending := conn.pending.addSession new_session }
              let conn := conn.commit
              let (_, conn) := log_audit_event conn (some user.id) "token_refresh" "success"
                ip_address user_agent [("session_id", toString new_sid)]
              (.ok (new_access_token, new_refresh_token), conn)

/-- `AuthService.logout_user` (`app/services/auth_service.py`). -/
def logout_user (conn : DBConn) (user : User) (refresh_token : Option String)
    (ip_address user_agent : Option String) : DBConn :=
  let conn :=
    if strTruthy refresh_token then
      let tok := refresh_token.getD ""
      match conn.pending.sessions.find?
          (fun s => s.user_id == user.id && s.refresh_token == tok) with
      | some s =>
          let pend1 := conn.pending.setFirstSession
            (fun x => x.user_id == user.id && x.refresh_token == tok)
            { s with is_revoked := true }
          { conn with pending := pend1 }
      | none => conn
    else
      let newSessions := conn.pending.sessions.map (fun x =>
        if x.user_id == user.id && x.is_revoked == false then
          { x with is_revoked := true }
        else x)
      { conn with pending := { conn.pending with sessions := newSessions } }
  let conn := conn.commit
  let (_, conn) := log_audit_event conn (some user.id) "logout" "success"
    ip_address user_agent
    [("logout_type", if strTruthy refresh_token then "single" else "all_devices")]
  conn

end AuthService

/-- Decoded JWT claims as read by the access guard (`payload.get(...)`
returns `none` for a missing claim).  The `kind` field models the `"type"`
claim written by `create_access_token` / `create_refresh_token`
(`app/core/security.py`), which set it to `"access"` / `"refresh"`. -/
structure TokenPayload where
  sub : Option String
  role : Option String
  kind : Option String
  deriving DecidableEq, Repr

/-- `get_current_user` (`app/core/dependencies.py`).  `decode` is the JWT
codec collaborator (`decode_token`, returning `none` for invalid/expired
tokens); `UUID(user_id_str)` becomes a `Nat` parse of the subject string. -/
def get_current_user (decode : String → Option TokenPayload) (now : Nat)
    (db : Store) (token : String) : Except HTTPError User :=
  match decode token with
  | none => .error ⟨401, "Invalid or expired token"⟩
  | some payload =>
      if payload.kind ≠ some "access" then
        .error ⟨401, "Invalid token type"⟩
      else if !strTruthy payload.sub then
        .error ⟨401, "Token missing subject claim"⟩
      else
        match (payload.sub.getD "").toNat? with
        | none => .error ⟨401, "Invalid user ID in token"⟩
        | some user_id =>
            match db.users.find? (fun u => u.id == user_id) with
            | none => .error ⟨401, "User not found"⟩
            | some user =>
                if !user.is_active then
                  .error ⟨403, "Account has been deactivated"⟩
                else if user.is_locked now then
                  .error ⟨403, "Account is temporarily locked due to failed login attempts"⟩
                else
                  .ok user

namespace UserService

/-- The allowed-fields filter and assignment step of `update_user_profile`:
`setattr(user, field, value)` for `field in {first_name, last_name,
preferences} and value is not None`.  `update_data` values are optional
strings (`none` models Python `None`). -/
def applyProfileField (u : User) (kv : String × Option String) : User :=
  match kv.2 with
  | none => u
  | some v =>
      if kv.1 == "first_name" then { u with first_name := some v }
      else if kv.1 == "last_name" then { u with last_name := some v }
      else if kv.1 == "preferences" then { u with preferences := v }
      else u

/-- `UserService.update_user_profile` (`app/services/user_service.py`). -/
def update_user_profile (conn : DBConn) (user : User)
    (update_data : List (String × Option String))
    (ip_address user_agent : Option String) : User × DBConn :=
  let user1 := update_data.foldl applyProfileField user
  let conn := { conn with
    pending := conn.pending.setFirstUser (fun u => u.id == user.id) user1 }
  let conn := conn.commit
  let (_, conn) := log_audit_event conn (some user1.id) "profile_updated" "success"
    ip_address user_agent
    [("updated_fields", String.intercalate "," (update_data.map (fun kv => kv.1)))]
  (user1, conn)

end UserService

/-- Repeated failed login attempts: run `authenticate_user` `n` times with
the same (wrong) credentials, threading the connection state (token mints
and session ids are irrelevant on the failure path). -/
def iterateFailedLogins (st : Settings) (verify : String → String → Bool) (now : Nat)
    (email_or_username password : String) : Nat → DBConn → DBConn
  | 0, conn => conn
  | n + 1, conn =>
      iterateFailedLogins st verify now email_or_username password n
        (AuthService.authenticate_user st verify now conn email_or_username password
          none none "" "" 0).2

/-!  Shared concrete fixtures for witnesses and counterexamples. -/

/-- An active, unlocked demo account. -/
def demoUser : User :=
  { id := 1, email := "a@b", username := "alice", password_hash := "H",
    first_name := none, last_name := none, role := "user", is_active := true,
    mfa_enabled := false, failed_login_attempts := 0, locked_until := none,
    preferences := "p", last_login_at := none }

/-- The documented default configuration (15 min access tokens, 7 day
refresh tokens, 5 attempts, 15 min lockout). -/
def demoSettings : Settings :=
  { ACCESS_TOKEN_EXPIRE_MINUTES := 15, REFRESH_TOKEN_EXPIRE_DAYS := 7,
    MAX_FAILED_LOGIN_ATTEMPTS := 5, ACCOUNT_LOCKOUT_DURATION_MINUTES := 15 }

/-- A live demo session for `demoUser` holding refresh token `"RT"`. -/
def demoSession : SessionModel :=
  { id := 7, user_id := 1, refresh_token := "RT", ip_address := some "1.2.3.4",
    user_agent := some "ua", device_type := "desktop", expires_at := 10180,
    is_revoked := false, created_at := 100, last_used_at := 100 }

/-- A revoked copy of the demo session, and an expired one. -/
def demoRevokedSession : SessionModel := { demoSession with is_revoked := true }

/-- A session whose expiry (100) lies before the probe time used below. -/
def demoExpiredSession : SessionModel := { demoSession with expires_at := 100 }

/-- The demo account one failed attempt below the lockout threshold. -/
def demoUserAtFour : User := { demoUser with failed_login_attempts := 4 }

/-- A demo account locked until minute 115. -/
def demoLockedUser : User :=
  { demoUser with failed_login_attempts := 5, locked_until := some 115 }

/-- A second live session of the demo account, holding token `"RT2"`. -/
def demoSession2 : SessionModel := { demoSession with id := 8, refresh_token := "RT2" }

/-- A live session of a different account (user 2). -/
def demoSessionOther : SessionModel :=
  { demoSession with id := 9, user_id := 2, refresh_token := "RT3" }

/-- The three-session store used by the logout witness. -/
def demoLogoutStore : Store :=
  { users := [demoUser], sessions := [demoSession, demoSession2, demoSessionOther],
    audit_logs := [] }

/-- The security-relevant account fields that C10 asserts are untouchable
through profile update. -/
def securityFields (u : User) :
    String × String × String × Bool × String × Nat × Option Nat :=
  (u.email, u.username, u.role, u.is_active, u.password_hash,
   u.failed_login_attempts, u.locked_until)

/-!  General lemmas about the store primitives. -/

theorem updateFirst_length {α : Type} (p : α → Bool) (f : α → α) (l : List α) :
    (updateFirst p f l).length = l.length := by
  induction l with
  | nil => rfl
  | cons x xs ih => cases hpx : p x <;> simp [updateFirst, hpx, ih]

theorem updateFirst_find? {α : Type} (p : α → Bool) (f : α → α) (l : List α) (a : α)
    (h : l.find? p = some a) (hq : p (f a) = true) :
    (updateFirst p f l).find? p = some (f a) := by
  induction l with
  | nil => simp [List.find?] at h
  | cons x xs ih =>
      cases hpx : p x
      · have h' : xs.find? p = some a := by simpa [List.find?, hpx] using h
        simp [updateFirst, hpx, List.find?, ih h']
      · have hxa : x = a := by simpa [List.find?, hpx] using h
        subst hxa
        simp [updateFirst, hpx, List.find?, hq]

theorem updateFirst_getD {α : Type} (p : α → Bool) (f : α → α) (l : List α)
    (i : Nat) (d : α) :
    (updateFirst p f l).getD i d = l.getD i d ∨
      (p (l.getD i d) = true ∧ (updateFirst p f l).getD i d = f (l.getD i d)) := by
  induction l generalizing i with
  | nil => left; rfl
  | cons x xs ih =>
      cases hpx : p x
      · cases i with
        | zero => left; simp [updateFirst, hpx]
        | succ n => simpa [updateFirst, hpx] using ih n
      · cases i with
        | zero => right; exact ⟨by simpa using hpx, by simp [updateFirst, hpx]⟩
        | succ n => left; simp [updateFirst, hpx]

theorem getD_map_lt {α : Type} (g : α → α) (l : List α) (i : Nat) (d : α)
    (h : i < l.length) : (l.map g).getD i d = g (l.getD i d) := by
  rw [List.getD_eq_getElem?_getD, List.getD_eq_getElem?_getD, List.getElem?_map,
    List.getElem?_eq_getElem h]
  rfl

theorem revoke_already_revoked (x : SessionModel) (h : x.is_revoked = true) :
    { x with is_revoked := true } = x := by
  cases x
  simp_all

/-- C7: the session-validity predicate, with the actual (non-strict) expiry
comparison: a session is usable iff it is not revoked and `now ≤ expires_at`.
The code's `is_expired` is `utcnow() > expires_at`, so the session is still
valid at the expiry instant itself. -/
theorem C7_session_validity (s : SessionModel) (now : Nat) :
    s.is_valid now = true ↔ (s.is_revoked = false ∧ now ≤ s.expires_at) := by
  simp [SessionModel.is_valid, SessionModel.is_expired, not_lt]

/-- C7 counterexample: at `now = expires_at` the code deems the session
valid although `now < expires_at` fails, refuting the claimed strict
inequality. -/
theorem C7_counterexample :
    demoSession.is_valid 10180 = true ∧ ¬ (10180 < demoSession.expires_at) := by
  decide

/-- C8: the access guard rejects, with 401 "Invalid token type", every
bearer token whose decoded claims carry a kind discriminator other than
`access`; the result does not depend on the store, so no account is
consulted. -/
theorem C8_access_guard_rejects_non_access (decode : String → Option TokenPayload)
    (now : Nat) (db : Store) (token : String) (payload : TokenPayload)
    (hdec : decode token = some payload) (hkind : payload.kind ≠ some "access") :
    get_current_user decode now db token = .error ⟨401, "Invalid token type"⟩ := by
  simp [get_current_user, hdec, hkind]

/-- C8 witness: a refresh-kind payload is rejected by the access guard. -/
theorem C8_witness :
    get_current_user (fun _ => some { sub := some "1", role := none, kind := some "refresh" })
      0 { users := [demoUser], sessions := [], audit_logs := [] } "tok"
      = .error ⟨401, "Invalid token type"⟩ :=
  C8_access_guard_rejects_non_access _ 0 _ "tok"
    { sub := some "1", role := none, kind := some "refresh" } rfl (by decide)

/-- A refresh attempt whose token resolves to an invalid (revoked or
expired) session fails 401 without touching the store. -/
theorem refresh_invalid_session_fails (st : Settings) (now : Nat) (conn : DBConn)
    (T : String) (ip ua : Option String) (a r : String) (sid : Nat) (S : SessionModel)
    (hfind : conn.pending.sessions.find? (fun s => s.refresh_token == T) = some S)
    (hval : S.is_valid now = false) :
    AuthService.refresh_access_token st now conn T ip ua a r sid
      = (.error ⟨401, "Refresh token has expired or been revoked"⟩, conn) := by
  simp only [AuthService.refresh_access_token, hfind]
  simp [hval]

/-- C1: refresh rotation is single-use.  For a session `S` holding token
`T`, not revoked, not expired, whose owning account exists and is active:
`refresh_access_token T` succeeds with the freshly minted pair, marks `S`
revoked, creates a new session row carrying the new refresh token, and a
subsequent `refresh_access_token T` against the resulting state fails with
401 Unauthorized. -/
theorem C1_refresh_rotation_single_use (st : Settings) (now now2 : Nat) (conn : DBConn)
    (T : String) (ip ua ip2 ua2 : Option String) (at1 rt1 at2 rt2 : String)
    (sid sid2 : Nat) (S : SessionModel) (U : User)
    (hfind : conn.pending.sessions.find? (fun s => s.refresh_token == T) = some S)
    (hrev : S.is_revoked = false) (hexp : now ≤ S.expires_at)
    (huser : conn.pending.users.find? (fun u => u.id == S.user_id) = some U)
    (hact : U.is_active = true) :
    (AuthService.refresh_access_token st now conn T ip ua at1 rt1 sid).1 = .ok (at1, rt1) ∧
    (AuthService.refresh_access_token st now conn T ip ua at1 rt1 sid).2.pending.sessions.find?
        (fun s => s.refresh_token == T) = some { S with is_revoked := true } ∧
    ({ id := sid, user_id := U.id, refresh_token := rt1,
       ip_address := pyOr ip S.ip_address, user_agent := pyOr ua S.user_agent,
       device_type := S.device_type,
       expires_at := now + st.REFRESH_TOKEN_EXPIRE_DAYS * 1440,
       is_revoked := false, created_at := now, last_used_at := now } ∈
      (AuthService.refresh_access_token st now conn T ip ua at1 rt1 sid).2.pending.sessions) ∧
    (AuthService.refresh_access_token st now2
        (AuthService.refresh_access_token st now conn T ip ua at1 rt1 sid).2
        T ip2 ua2 at2 rt2 sid2).1
      = .error ⟨401, "Refresh token has expired or been revoked"⟩ := by
  have hSvalid : S.is_valid now = true := by
    simp [SessionModel.is_valid, SessionModel.is_expired, hrev]
    omega
  have hpS' : (fun s => s.refresh_token == T) { S with is_revoked := true } = true := by
    have := List.find?_some hfind
    simpa using this
  have hsess : (AuthService.refresh_access_token st now conn T ip ua at1 rt1 sid).2.pending.sessions
      = updateFirst (fun s => s.refresh_token == T)
          (fun _ => { S with is_revoked := true }) conn.pending.sessions ++
        [{ id := sid, user_id := U.id, refresh_token := rt1,
           ip_address := pyOr ip S.ip_address, user_agent := pyOr ua S.user_agent,
           device_type := S.device_type,
           expires_at := now + st.REFRESH_TOKEN_EXPIRE_DAYS * 1440,
           is_revoked := false, created_at := now, last_used_at := now }] := by
    simp [AuthService.refresh_access_token, hfind, hSvalid, huser, hact,
      log_audit_event, DBConn.commit, Store.addSession, Store.addAudit,
      Store.setFirstSession]
  have hfind2 : (AuthService.refresh_access_token st now conn T ip ua at1 rt1 sid).2.pending.sessions.find?
      (fun s => s.refresh_token == T) = some { S with is_revoked := true } := by
    rw [hsess, List.find?_append,
      updateFirst_find? (fun s => s.refresh_token == T)
        (fun _ => { S with is_revoked := true }) conn.pending.sessions S hfind hpS']
    rfl
  refine ⟨?_, hfind2, ?_, ?_⟩
  · simp [AuthService.refresh_access_token, hfind, hSvalid, huser, hact,
      log_audit_event, DBConn.commit, Store.addSession, Store.addAudit,
      Store.setFirstSession]
  · rw [hsess]
    exact List.mem_append_right _ (by simp)
  · have hval : SessionModel.is_valid { S with is_revoked := true } now2 = false := by
      simp [SessionModel.is_valid]
    rw [refresh_invalid_session_fails st now2 _ T ip2 ua2 at2 rt2 sid2 _ hfind2 hval]

/-- C1 witness: rotating `demoSession`'s token `"RT"` succeeds, revokes it,
stores the new token `"RT2"`, and a replayed refresh of `"RT"` fails 401. -/
theorem C1_witness :
    (AuthService.refresh_access_token demoSettings 200
        (DBConn.fresh { users := [demoUser], sessions := [demoSession], audit_logs := [] })
        "RT" none none "AT2" "RT2" 8).1 = .ok ("AT2", "RT2") ∧
    (AuthService.refresh_access_token demoSettings 300
        (AuthService.refresh_access_token demoSettings 200
          (DBConn.fresh { users := [demoUser], sessions := [demoSession], audit_logs := [] })
          "RT" none none "AT2" "RT2" 8).2
        "RT" none none "AT3" "RT3" 9).1
      = .error ⟨401, "Refresh token has expired or been revoked"⟩ := by
  have h := C1_refresh_rotation_single_use demoSettings 200 300
    (DBConn.fresh { users := [demoUser], sessions := [demoSession], audit_logs := [] })
    "RT" none none none none "AT2" "RT2" "AT3" "RT3" 8 9 demoSession demoUser
    (by decide) (by decide) (by decide) (by decide) (by decide)
  exact ⟨h.1, h.2.2.2⟩

/-- C4 counterexample: session-not-found and session-revoked both fail with
status 401, but with different `detail` strings, so the caller-observable
failure result is not identical across the three cases as claimed. -/
theorem C4_counterexample :
    (AuthService.refresh_access_token demoSettings 200
        (DBConn.fresh { users := [demoUser], sessions := [], audit_logs := [] })
        "RT" none none "A" "R" 8).1 = .error ⟨401, "Invalid refresh token"⟩ ∧
    (AuthService.refresh_access_token demoSettings 200
        (DBConn.fresh { users := [demoUser], sessions := [demoRevokedSession], audit_logs := [] })
        "RT" none none "A" "R" 8).1
      = .error ⟨401, "Refresh token has expired or been revoked"⟩ ∧
    (AuthService.refresh_access_token demoSettings 200
        (DBConn.fresh { users := [demoUser], sessions := [demoExpiredSession], audit_logs := [] })
        "RT" none none "A" "R" 8).1
      = .error ⟨401, "Refresh token has expired or been revoked"⟩ ∧
    ("Invalid refresh token" : String) ≠ "Refresh token has expired or been revoked" := by
  decide

/-- C4 (amended): `refresh_access_token` fails with status 401 in all three
cases — token not found, session expired, session revoked — leaving the
store untouched.  Expired and revoked sessions yield literally the same
result (one shared branch), but absence yields a different detail string,
so the response body does distinguish absence from invalidity; only the
status code is identical across all three. -/
theorem C4_refresh_unauthorized_cases (st : Settings) (now : Nat) (conn : DBConn)
    (T : String) (ip ua : Option String) (a r : String) (sid : Nat) :
    (conn.pending.sessions.find? (fun s => s.refresh_token == T) = none →
      AuthService.refresh_access_token st now conn T ip ua a r sid
        = (.error ⟨401, "Invalid refresh token"⟩, conn)) ∧
    (∀ S, conn.pending.sessions.find? (fun s => s.refresh_token == T) = some S →
      S.is_valid now = false →
      AuthService.refresh_access_token st now conn T ip ua a r sid
        = (.error ⟨401, "Refresh token has expired or been revoked"⟩, conn)) := by
  constructor
  · intro hnone
    simp [AuthService.refresh_access_token, hnone]
  · intro S hfind hval
    exact refresh_invalid_session_fails st now conn T ip ua a r sid S hfind hval

/-- C4 witness: both failure branches, instantiated on concrete stores. -/
theorem C4_witness :
    (AuthService.refresh_access_token demoSettings 200
        (DBConn.fresh { users := [demoUser], sessions := [], audit_logs := [] })
        "RT" none none "A" "R" 8)
      = (.error ⟨401, "Invalid refresh token"⟩,
         DBConn.fresh { users := [demoUser], sessions := [], audit_logs := [] }) ∧
    (AuthService.refresh_access_token demoSettings 200
        (DBConn.fresh { users := [demoUser], sessions := [demoRevokedSession], audit_logs := [] })
        "RT" none none "A" "R" 8)
      = (.error ⟨401, "Refresh token has expired or been revoked"⟩,
         DBConn.fresh { users := [demoUser], sessions := [demoRevokedSession], audit_logs := [] }) :=
  ⟨(C4_refresh_unauthorized_cases demoSettings 200
      (DBConn.fresh { users := [demoUser], sessions := [], audit_logs := [] })
      "RT" none none "A" "R" 8).1 (by decide),
   (C4_refresh_unauthorized_cases demoSettings 200
      (DBConn.fresh { users := [demoUser], sessions := [demoRevokedSession], audit_logs := [] })
      "RT" none none "A" "R" 8).2 demoRevokedSession (by decide) (by decide)⟩

/-- C2 counterexample: on the threshold-reaching wrong-password attempt
(counter 4 → 5, threshold 5) the code emits exactly one audit event, with
action `account_locked` — there is no `login_failure` event for that
attempt, refuting the claimed pair of events. -/
theorem C2_counterexample :
    ((AuthService.authenticate_user demoSettings (fun _ _ => false) 100
        (DBConn.fresh { users := [demoUserAtFour], sessions := [], audit_logs := [] })
        "alice" "wrong" none none "AT" "RT" 7).2.pending.audit_logs.map
        (fun a => a.action)) = ["account_locked"] := by
  decide

/-- C2 (amended): for an active, unlocked account, a wrong-password attempt
whose increment brings the counter exactly to the threshold sets
`locked_until = now + lockout duration`, fails with 403 Forbidden, and
emits exactly one audit event for that attempt: `account_locked` (outcome
`success`); no `login_failure` event accompanies it. -/
theorem C2_lockout_threshold (st : Settings) (verify : String → String → Bool)
    (now : Nat) (conn : DBConn) (ident pw : String) (ip ua : Option String)
    (a r : String) (sid : Nat) (u : User)
    (hfind : conn.pending.users.find? (AuthService.identMatch ident) = some u)
    (hact : u.is_active = true)
    (hnlock : u.is_locked now = false)
    (hpw : verify pw u.password_hash = false)
    (hthr : u.failed_login_attempts + 1 = st.MAX_FAILED_LOGIN_ATTEMPTS) :
    (AuthService.authenticate_user st verify now conn ident pw ip ua a r sid).1
      = .error ⟨403, "Account locked due to too many failed login attempts"⟩ ∧
    (AuthService.authenticate_user st verify now conn ident pw ip ua a r sid).2.pending.users.find?
        (AuthService.identMatch ident)
      = some { u with
               failed_login_attempts := u.failed_login_attempts + 1,
               locked_until := some (now + st.ACCOUNT_LOCKOUT_DURATION_MINUTES) } ∧
    (AuthService.authenticate_user st verify now conn ident pw ip ua a r sid).2.pending.audit_logs
      = conn.pending.audit_logs ++
        [{ user_id := some u.id, action := "account_locked", outcome := "success",
           ip_address := ip, user_agent := ua,
           metadata := [("email", u.email),
                        ("attempts", toString (u.failed_login_attempts + 1)),
                        ("locked_until", toString (now + st.ACCOUNT_LOCKOUT_DURATION_MINUTES))] }] := by
  have hq : AuthService.identMatch ident u = true := List.find?_some hfind
  have hge : st.MAX_FAILED_LOGIN_ATTEMPTS ≤ u.failed_login_attempts + 1 :=
    le_of_eq hthr.symm
  refine ⟨?_, ?_, ?_⟩
  · simp [AuthService.authenticate_user, hfind, hact, hnlock, hpw, hge,
      log_audit_event, DBConn.commit, Store.setFirstUser, Store.addAudit]
  · have hfind2 := updateFirst_find? (AuthService.identMatch ident)
      (fun _ => { u with
                  failed_login_attempts := u.failed_login_attempts + 1,
                  locked_until := some (now + st.ACCOUNT_LOCKOUT_DURATION_MINUTES) })
      conn.pending.users u hfind hq
    simp only [AuthService.authenticate_user, hfind]
    simp [hact, hnlock, hpw, hge, log_audit_event, DBConn.commit,
      Store.setFirstUser, Store.addAudit]
    simpa [hact] using hfind2
  · simp [AuthService.authenticate_user, hfind, hact, hnlock, hpw, hge,
      log_audit_event, DBConn.commit, Store.setFirstUser, Store.addAudit]

/-- C2 witness: the amended statement at the concrete threshold run. -/
theorem C2_witness :
    (AuthService.authenticate_user demoSettings (fun _ _ => false) 100
        (DBConn.fresh { users := [demoUserAtFour], sessions := [], audit_logs := [] })
        "alice" "wrong" none none "AT" "RT" 7).1
      = .error ⟨403, "Account locked due to too many failed login attempts"⟩ ∧
    (AuthService.authenticate_user demoSettings (fun _ _ => false) 100
        (DBConn.fresh { users := [demoUserAtFour], sessions := [], audit_logs := [] })
        "alice" "wrong" none none "AT" "RT" 7).2.pending.users.find?
        (AuthService.identMatch "alice")
      = some { demoUserAtFour with failed_login_attempts := 5, locked_until := some 115 } := by
  have h := C2_lockout_threshold demoSettings (fun _ _ => false) 100
    (DBConn.fresh { users := [demoUserAtFour], sessions := [], audit_logs := [] })
    "alice" "wrong" none none "AT" "RT" 7 demoUserAtFour
    (by decide) (by decide) (by decide) (by decide) (by decide)
  exact ⟨h.1, h.2.1⟩

/-- C3 counterexample: a wrong-password attempt (counter 0 → 1) produces
two separate commits; the first — the one that persists the counter
increment — contains zero audit rows, and the `login_failure` row only
arrives with the second commit.  The state change and its audit record
therefore do not commit atomically together: were the audit write to
fail, the counter increment would already be durable. -/
theorem C3_counterexample :
    ((AuthService.authenticate_user demoSettings (fun _ _ => false) 100
        (DBConn.fresh { users := [demoUser], sessions := [], audit_logs := [] })
        "alice" "wrong" none none "AT" "RT" 7).2.commits.map
        (fun s => (s.users.map (fun u => u.failed_login_attempts), s.audit_logs.length)))
      = [([1], 0), ([1], 1)] := by
  decide

/-- C3 (amended): the audit record is not written in the same transaction
as the state change; instead each state-changing operation commits its
primary state change first, then `log_audit_event` appends and commits the
audit row in a second, separate transaction.  Shown for the two
representative mutations: the failed-login counter increment and the
refresh rotation (revoke + new session).  In both cases the commit trace
gains exactly two snapshots: the first carries the state change and no new
audit row; only the second adds the audit record. -/
theorem C3_audit_commits_separately :
    (∀ (st : Settings) (verify : String → String → Bool) (now : Nat) (conn : DBConn)
       (ident pw : String) (ip ua : Option String) (a r : String) (sid : Nat) (u : User),
      conn.pending.users.find? (AuthService.identMatch ident) = some u →
      u.is_active = true → u.is_locked now = false →
      verify pw u.password_hash = false →
      u.failed_login_attempts + 1 < st.MAX_FAILED_LOGIN_ATTEMPTS →
      (AuthService.authenticate_user st verify now conn ident pw ip ua a r sid).2.commits
        = conn.commits ++
          [{ conn.pending with
             users := (updateFirst (AuthService.identMatch ident)
               (fun _ => { u with failed_login_attempts := u.failed_login_attempts + 1 })
               conn.pending.users) },
           { conn.pending with
             users := (updateFirst (AuthService.identMatch ident)
               (fun _ => { u with failed_login_attempts := u.failed_login_attempts + 1 })
               conn.pending.users),
             audit_logs := (conn.pending.audit_logs ++
               [{ user_id := some u.id, action := "login_failure", outcome := "failure",
                  ip_address := ip, user_agent := ua,
                  metadata := [("email", u.email), ("reason", "invalid_password"),
                               ("attempt", toString (u.failed_login_attempts + 1))] }]) }]) ∧
    (∀ (st : Settings) (now : Nat) (conn : DBConn) (T : String) (ip ua : Option String)
       (a r : String) (sid : Nat) (S : SessionModel) (U : User),
      conn.pending.sessions.find? (fun s => s.refresh_token == T) = some S →
      S.is_revoked = false → now ≤ S.expires_at →
      conn.pending.users.find? (fun us => us.id == S.user_id) = some U →
      U.is_active = true →
      (AuthService.refresh_access_token st now conn T ip ua a r sid).2.commits
        = conn.commits ++
          [{ conn.pending with
             sessions := (updateFirst (fun s => s.refresh_token == T)
                 (fun _ => { S with is_revoked := true }) conn.pending.sessions ++
               [{ id := sid, user_id := U.id, refresh_token := r,
                  ip_address := pyOr ip S.ip_address, user_agent := pyOr ua S.user_agent,
                  device_type := S.device_type,
                  expires_at := now + st.REFRESH_TOKEN_EXPIRE_DAYS * 1440,
                  is_revoked := false, created_at := now, last_used_at := now }]) },
           { conn.pending with
             sessions := (updateFirst (fun s => s.refresh_token == T)
                 (fun _ => { S with is_revoked := true }) conn.pending.sessions ++
               [{ id := sid, user_id := U.id, refresh_token := r,
                  ip_address := pyOr ip S.ip_address, user_agent := pyOr ua S.user_agent,
                  device_type := S.device_type,
                  expires_at := now + st.REFRESH_TOKEN_EXPIRE_DAYS * 1440,
                  is_revoked := false, created_at := now, last_used_at := now }]),
             audit_logs := (conn.pending.audit_logs ++
               [{ user_id := some U.id, action := "token_refresh", outcome := "success",
                  ip_address := ip, user_agent := ua,
                  metadata := [("session_id", toString sid)] }]) }]) := by
  constructor
  · intro st verify now conn ident pw ip ua a r sid u hfind hact hnlock hpw hlt
    have hnge : ¬ (st.MAX_FAILED_LOGIN_ATTEMPTS ≤ u.failed_login_attempts + 1) := by omega
    simp [AuthService.authenticate_user, hfind, hact, hnlock, hpw, hnge,
      log_audit_event, DBConn.commit, Store.setFirstUser, Store.addAudit]
  · intro st now conn T ip ua a r sid S U hfind hrev hexp huser hact
    have hSvalid : S.is_valid now = true := by
      simp [SessionModel.is_valid, SessionModel.is_expired, hrev]
      omega
    simp [AuthService.refresh_access_token, hfind, hSvalid, huser, hact,
      log_audit_event, DBConn.commit, Store.setFirstSession, Store.addSession,
      Store.addAudit]

/-- C3 witness: the two commit-trace shapes at concrete runs. -/
theorem C3_witness :
    (AuthService.authenticate_user demoSettings (fun _ _ => false) 100
        (DBConn.fresh { users := [demoUser], sessions := [], audit_logs := [] })
        "alice" "wrong" none none "AT" "RT" 7).2.commits.length = 2 ∧
    (AuthService.refresh_access_token demoSettings 200
        (DBConn.fresh { users := [demoUser], sessions := [demoSession], audit_logs := [] })
        "RT" none none "AT2" "RT2" 8).2.commits.length = 2 := by
  have h1 := C3_audit_commits_separately.1 demoSettings (fun _ _ => false) 100
    (DBConn.fresh { users := [demoUser], sessions := [], audit_logs := [] })
    "alice" "wrong" none none "AT" "RT" 7 demoUser
    (by decide) (by decide) (by decide) (by decide) (by decide)
  have h2 := C3_audit_commits_separately.2 demoSettings 200
    (DBConn.fresh { users := [demoUser], sessions := [demoSession], audit_logs := [] })
    "RT" none none "AT2" "RT2" 8 demoSession demoUser
    (by decide) (by decide) (by decide) (by decide) (by decide)
  rw [h1, h2]
  decide

/-- A wrong-password attempt below the threshold: 401, counter + 1, no
other change to the account record, sessions untouched. -/
theorem auth_wrong_password_below_threshold (st : Settings)
    (verify : String → String → Bool) (now : Nat) (conn : DBConn)
    (ident pw : String) (ip ua : Option String) (a r : String) (sid : Nat) (u : User)
    (hfind : conn.pending.users.find? (AuthService.identMatch ident) = some u)
    (hact : u.is_active = true)
    (hnlock : u.is_locked now = false)
    (hpw : verify pw u.password_hash = false)
    (hlt : u.failed_login_attempts + 1 < st.MAX_FAILED_LOGIN_ATTEMPTS) :
    (AuthService.authenticate_user st verify now conn ident pw ip ua a r sid).1
      = .error ⟨401, "Invalid credentials"⟩ ∧
    (AuthService.authenticate_user st verify now conn ident pw ip ua a r sid).2.pending.users.find?
        (AuthService.identMatch ident)
      = some { u with failed_login_attempts := u.failed_login_attempts + 1 } ∧
    (AuthService.authenticate_user st verify now conn ident pw ip ua a r sid).2.pending.sessions
      = conn.pending.sessions := by
  have hq : AuthService.identMatch ident u = true := List.find?_some hfind
  have hnge : ¬ (st.MAX_FAILED_LOGIN_ATTEMPTS ≤ u.failed_login_attempts + 1) := by omega
  have hfind2 := updateFirst_find? (AuthService.identMatch ident)
    (fun _ => { u with failed_login_attempts := u.failed_login_attempts + 1 })
    conn.pending.users u hfind hq
  refine ⟨?_, ?_, ?_⟩
  · simp [AuthService.authenticate_user, hfind, hact, hnlock, hpw, hnge,
      log_audit_event, DBConn.commit, Store.setFirstUser, Store.addAudit]
  · simp only [AuthService.authenticate_user, hfind]
    simp [hact, hnlock, hpw, hnge, log_audit_event, DBConn.commit,
      Store.setFirstUser, Store.addAudit]
    simpa [hact] using hfind2
  · simp [AuthService.authenticate_user, hfind, hact, hnlock, hpw, hnge,
      log_audit_event, DBConn.commit, Store.setFirstUser, Store.addAudit]

/-- Iterating wrong-password attempts from counter `k`: after `N` further
attempts (with `k + N` still below the threshold) the stored counter is
exactly `k + N` and nothing else on the record has changed. -/
theorem iterateFailedLogins_counter (st : Settings) (verify : String → String → Bool)
    (now : Nat) (ident pw : String) :
    ∀ (N : Nat) (conn : DBConn) (u : User) (k : Nat),
      conn.pending.users.find? (AuthService.identMatch ident)
          = some { u with failed_login_attempts := k } →
      u.is_active = true → u.locked_until = none →
      verify pw u.password_hash = false →
      k + N < st.MAX_FAILED_LOGIN_ATTEMPTS →
      (iterateFailedLogins st verify now ident pw N conn).pending.users.find?
          (AuthService.identMatch ident)
        = some { u with failed_login_attempts := k + N }
  | 0, conn, u, k, hfind, _, _, _, _ => by
      simpa using hfind
  | N + 1, conn, u, k, hfind, hact, hlock, hpw, hlt => by
      have hnlock : User.is_locked { u with failed_login_attempts := k } now = false := by
        simp [User.is_locked, hlock]
      have hstep := auth_wrong_password_below_threshold st verify now conn ident pw
        none none "" "" 0 { u with failed_login_attempts := k } hfind hact hnlock hpw
        (by change k + 1 < _; omega)
      have hfind1 : (AuthService.authenticate_user st verify now conn ident pw
            none none "" "" 0).2.pending.users.find? (AuthService.identMatch ident)
          = some { u with failed_login_attempts := k + 1 } := hstep.2.1
      have hrec := iterateFailedLogins_counter st verify now ident pw N
        (AuthService.authenticate_user st verify now conn ident pw none none "" "" 0).2
        u (k + 1) hfind1 hact hlock hpw (by omega)
      have harith : k + 1 + N = k + (N + 1) := by omega
      rw [harith] at hrec
      simpa [iterateFailedLogins] using hrec

/-- C5: failed-attempt counter lifecycle.  (i) For an active account with
`locked_until` null, a wrong-password attempt whose incremented counter is
still below the threshold stores counter `k + 1` on the same record and
leaves `locked_until` null.  (ii) Hence `N` consecutive such failures from
a clean counter (`N` below the threshold) leave the counter at exactly `N`
with `locked_until` still null.  (iii) A correct-password login resets the
counter to 0 and clears `locked_until`, whatever their previous values. -/
theorem C5_failed_counter_lifecycle :
    (∀ (st : Settings) (verify : String → String → Bool) (now : Nat) (conn : DBConn)
       (ident pw : String) (ip ua : Option String) (a r : String) (sid : Nat) (u : User),
      conn.pending.users.find? (AuthService.identMatch ident) = some u →
      u.is_active = true → u.locked_until = none →
      verify pw u.password_hash = false →
      u.failed_login_attempts + 1 < st.MAX_FAILED_LOGIN_ATTEMPTS →
      (AuthService.authenticate_user st verify now conn ident pw ip ua a r sid).2.pending.users.find?
          (AuthService.identMatch ident)
        = some { u with failed_login_attempts := u.failed_login_attempts + 1 } ∧
      ({ u with failed_login_attempts := u.failed_login_attempts + 1 } : User).locked_until
        = none) ∧
    (∀ (st : Settings) (verify : String → String → Bool) (now : Nat) (conn : DBConn)
       (ident pw : String) (N : Nat) (u : User),
      conn.pending.users.find? (AuthService.identMatch ident) = some u →
      u.is_active = true → u.locked_until = none →
      u.failed_login_attempts = 0 →
      verify pw u.password_hash = false →
      N < st.MAX_FAILED_LOGIN_ATTEMPTS →
      (iterateFailedLogins st verify now ident pw N conn).pending.users.find?
          (AuthService.identMatch ident)
        = some { u with failed_login_attempts := N } ∧
      ({ u with failed_login_attempts := N } : User).locked_until = none) ∧
    (∀ (st : Settings) (verify : String → String → Bool) (now : Nat) (conn : DBConn)
       (ident pw : String) (ip ua : Option String) (a r : String) (sid : Nat) (u : User),
      conn.pending.users.find? (AuthService.identMatch ident) = some u →
      u.is_active = true → u.is_locked now = false →
      verify pw u.password_hash = true →
      (AuthService.authenticate_user st verify now conn ident pw ip ua a r sid).1
        = .ok ({ u with
                 failed_login_attempts := 0, locked_until := none,
                 last_login_at := some now }, a, r) ∧
      (AuthService.authenticate_user st verify now conn ident pw ip ua a r sid).2.pending.users.find?
          (AuthService.identMatch ident)
        = some { u with
                 failed_login_attempts := 0, locked_until := none,
                 last_login_at := some now }) := by
  refine ⟨?_, ?_, ?_⟩
  · intro st verify now conn ident pw ip ua a r sid u hfind hact hlock hpw hlt
    have hnlock : u.is_locked now = false := by simp [User.is_locked, hlock]
    exact ⟨(auth_wrong_password_below_threshold st verify now conn ident pw ip ua a r
      sid u hfind hact hnlock hpw hlt).2.1, hlock⟩
  · intro st verify now conn ident pw N u hfind hact hlock hz hpw hN
    have hu0 : ({ u with failed_login_attempts := 0 } : User) = u := by
      cases u
      simp_all
    have h := iterateFailedLogins_counter st verify now ident pw N conn u 0
      (by rw [hu0]; exact hfind) hact hlock hpw (by omega)
    rw [Nat.zero_add] at h
    exact ⟨h, hlock⟩
  · intro st verify now conn ident pw ip ua a r sid u hfind hact hnlock hpw
    have hq : AuthService.identMatch ident u = true := List.find?_some hfind
    have hfind2 := updateFirst_find? (AuthService.identMatch ident)
      (fun _ => { u with
                  failed_login_attempts := 0, locked_until := none,
                  last_login_at := some now })
      conn.pending.users u hfind hq
    constructor
    · simp [AuthService.authenticate_user, hfind, hact, hnlock, hpw,
        log_audit_event, DBConn.commit, Store.setFirstUser, Store.addSession,
        Store.addAudit]
    · simp only [AuthService.authenticate_user, hfind]
      simp [hact, hnlock, hpw, log_audit_event, DBConn.commit,
        Store.setFirstUser, Store.addSession, Store.addAudit]
      simpa [hact] using hfind2

/-- C5 witness: one failure (0 → 1), three iterated failures (counter 3,
no lock), and a correct-password login that resets a counter of 4. -/
theorem C5_witness :
    (AuthService.authenticate_user demoSettings (fun _ _ => false) 100
        (DBConn.fresh { users := [demoUser], sessions := [], audit_logs := [] })
        "alice" "wrong" none none "AT" "RT" 7).2.pending.users.find?
        (AuthService.identMatch "alice")
      = some { demoUser with failed_login_attempts := 1 } ∧
    (iterateFailedLogins demoSettings (fun _ _ => false) 100 "alice" "wrong" 3
        (DBConn.fresh { users := [demoUser], sessions := [], audit_logs := [] })).pending.users.find?
        (AuthService.identMatch "alice")
      = some { demoUser with failed_login_attempts := 3 } ∧
    (AuthService.authenticate_user demoSettings (fun _ _ => true) 100
        (DBConn.fresh { users := [demoUserAtFour], sessions := [], audit_logs := [] })
        "alice" "pw" none none "AT" "RT" 7).2.pending.users.find?
        (AuthService.identMatch "alice")
      = some { demoUserAtFour with
               failed_login_attempts := 0, locked_until := none,
               last_login_at := some 100 } := by
  refine ⟨?_, ?_, ?_⟩
  · exact (C5_failed_counter_lifecycle.1 demoSettings (fun _ _ => false) 100
      (DBConn.fresh { users := [demoUser], sessions := [], audit_logs := [] })
      "alice" "wrong" none none "AT" "RT" 7 demoUser
      (by decide) (by decide) (by decide) (by decide) (by decide)).1
  · exact (C5_failed_counter_lifecycle.2.1 demoSettings (fun _ _ => false) 100
      (DBConn.fresh { users := [demoUser], sessions := [], audit_logs := [] })
      "alice" "wrong" 3 demoUser
      (by decide) (by decide) (by decide) (by decide) (by decide) (by decide)).1
  · exact (C5_failed_counter_lifecycle.2.2 demoSettings (fun _ _ => true) 100
      (DBConn.fresh { users := [demoUserAtFour], sessions := [], audit_logs := [] })
      "alice" "pw" none none "AT" "RT" 7 demoUserAtFour
      (by decide) (by decide) (by decide) (by decide)).2

/-- C6: while `locked_until` is set and in the future, every login attempt
against that account — for any password and any verifier, hence also the
correct password — fails with status 403 and mutates neither the account
rows nor the sessions; the password check is never reached because the
lock test precedes it. -/
theorem C6_locked_account_rejects_login (st : Settings)
    (verify : String → String → Bool) (now : Nat) (conn : DBConn)
    (ident pw : String) (ip ua : Option String) (a r : String) (sid : Nat)
    (u : User) (t : Nat)
    (hfind : conn.pending.users.find? (AuthService.identMatch ident) = some u)
    (hlu : u.locked_until = some t)
    (hfut : now < t) :
    (∃ d, (AuthService.authenticate_user st verify now conn ident pw ip ua a r sid).1
        = .error ⟨403, d⟩) ∧
    (AuthService.authenticate_user st verify now conn ident pw ip ua a r sid).2.pending.users
      = conn.pending.users ∧
    (AuthService.authenticate_user st verify now conn ident pw ip ua a r sid).2.pending.sessions
      = conn.pending.sessions := by
  have hlocked : u.is_locked now = true := by simp [User.is_locked, hlu, hfut]
  cases hA : u.is_active
  · refine ⟨⟨"Account has been deactivated", ?_⟩, ?_, ?_⟩ <;>
      simp [AuthService.authenticate_user, hfind, hA, log_audit_event,
        DBConn.commit, Store.addAudit]
  · refine ⟨⟨"Account is temporarily locked due to failed login attempts", ?_⟩, ?_, ?_⟩ <;>
      simp [AuthService.authenticate_user, hfind, hA, hlocked, log_audit_event,
        DBConn.commit, Store.addAudit]

/-- C6 witness: a correct-password login against the locked account at
minute 100 fails 403 and changes no account or session state. -/
theorem C6_witness :
    (∃ d, (AuthService.authenticate_user demoSettings (fun _ _ => true) 100
        (DBConn.fresh { users := [demoLockedUser], sessions := [], audit_logs := [] })
        "alice" "Chris@123!" none none "AT" "RT" 7).1 = .error ⟨403, d⟩) ∧
    (AuthService.authenticate_user demoSettings (fun _ _ => true) 100
        (DBConn.fresh { users := [demoLockedUser], sessions := [], audit_logs := [] })
        "alice" "Chris@123!" none none "AT" "RT" 7).2.pending.users
      = [demoLockedUser] := by
  have h := C6_locked_account_rejects_login demoSettings (fun _ _ => true) 100
    (DBConn.fresh { users := [demoLockedUser], sessions := [], audit_logs := [] })
    "alice" "Chris@123!" none none "AT" "RT" 7 demoLockedUser 115
    (by decide) (by decide) (by decide)
  exact ⟨h.1, h.2.1⟩

/-- Pointwise effect of mutating the object returned by `.first()`: every
position is either untouched, or it satisfied the filter and has been
replaced by the image of its own value (the first match is the found
object itself, so the replacement value is `g` of the element there). -/
theorem updateFirst_found_getD {α : Type} (p : α → Bool) (g : α → α) (l : List α)
    (s : α) (hfind : l.find? p = some s) (i : Nat) (d : α) :
    (updateFirst p (fun _ => g s) l).getD i d = l.getD i d ∨
      (p (l.getD i d) = true ∧
       (updateFirst p (fun _ => g s) l).getD i d = g (l.getD i d)) := by
  induction l generalizing i with
  | nil => left; rfl
  | cons x xs ih =>
      cases hpx : p x
      · have h' : xs.find? p = some s := by simpa [List.find?, hpx] using hfind
        cases i with
        | zero => left; simp [updateFirst, hpx]
        | succ n => simpa [updateFirst, hpx] using ih h' n
      · have hxs : x = s := by simpa [List.find?, hpx] using hfind
        cases i with
        | zero =>
            right
            subst hxs
            exact ⟨by simpa using hpx, by simp [updateFirst, hpx]⟩
        | succ n => left; simp [updateFirst, hpx]

/-- C9: logout revocation scope.  With a (non-empty) token, the session
list keeps its length, the session found for `(user, token)` is actually
revoked in the result (same record, `is_revoked` set), and every position
is either unchanged or is a `(user, token)`-matching session with only its
`is_revoked` flag set — so sessions of other accounts and other sessions
of the same account are untouched.  With no token, every session of the
account ends up revoked (all other fields intact) and every session of
any other account is unchanged. -/
theorem C9_logout_revocation_scope (conn : DBConn) (user : User)
    (ip ua : Option String) (d : SessionModel) (i : Nat) :
    (∀ tok : String, tok ≠ "" →
      (AuthService.logout_user conn user (some tok) ip ua).pending.sessions.length
        = conn.pending.sessions.length ∧
      (i < conn.pending.sessions.length →
        (AuthService.logout_user conn user (some tok) ip ua).pending.sessions.getD i d
            = conn.pending.sessions.getD i d ∨
          ((conn.pending.sessions.getD i d).user_id = user.id ∧
           (conn.pending.sessions.getD i d).refresh_token = tok ∧
           (AuthService.logout_user conn user (some tok) ip ua).pending.sessions.getD i d
             = { conn.pending.sessions.getD i d with is_revoked := true })) ∧
      (∀ s, conn.pending.sessions.find?
            (fun x => x.user_id == user.id && x.refresh_token == tok) = some s →
        (AuthService.logout_user conn user (some tok) ip ua).pending.sessions.find?
            (fun x => x.user_id == user.id && x.refresh_token == tok)
          = some { s with is_revoked := true })) ∧
    ((AuthService.logout_user conn user none ip ua).pending.sessions.length
        = conn.pending.sessions.length ∧
      (i < conn.pending.sessions.length →
        ((conn.pending.sessions.getD i d).user_id ≠ user.id →
          (AuthService.logout_user conn user none ip ua).pending.sessions.getD i d
            = conn.pending.sessions.getD i d) ∧
        ((conn.pending.sessions.getD i d).user_id = user.id →
          (AuthService.logout_user conn user none ip ua).pending.sessions.getD i d
            = { conn.pending.sessions.getD i d with is_revoked := true }))) := by
  constructor
  · intro tok htok
    have hst : strTruthy (some tok) = true := by simp [strTruthy, htok]
    cases hf : conn.pending.sessions.find?
        (fun x => x.user_id == user.id && x.refresh_token == tok) with
    | none =>
        have hsess : (AuthService.logout_user conn user (some tok) ip ua).pending.sessions
            = conn.pending.sessions := by
          simp [AuthService.logout_user, hst, hf, log_audit_event, DBConn.commit,
            Store.addAudit]
        exact ⟨by rw [hsess], fun _ => Or.inl (by rw [hsess]),
          fun s hs => by simp [hf] at hs⟩
    | some s =>
        have hsess : (AuthService.logout_user conn user (some tok) ip ua).pending.sessions
            = updateFirst (fun x => x.user_id == user.id && x.refresh_token == tok)
                (fun _ => { s with is_revoked := true }) conn.pending.sessions := by
          simp [AuthService.logout_user, hst, hf, log_audit_event, DBConn.commit,
            Store.setFirstSession, Store.addAudit]
        refine ⟨by rw [hsess, updateFirst_length], fun _ => ?_, fun s' hs' => ?_⟩
        · have h := updateFirst_found_getD
            (fun x => x.user_id == user.id && x.refresh_token == tok)
            (fun x => { x with is_revoked := true }) conn.pending.sessions s hf i d
          rcases h with h | ⟨hp, h⟩
          · left; rw [hsess]; exact h
          · right
            have hp' := hp
            simp only [Bool.and_eq_true, beq_iff_eq] at hp'
            exact ⟨hp'.1, hp'.2, by rw [hsess]; exact h⟩
        · have hss : s' = s := (Option.some.inj hs').symm
          subst hss
          rw [hsess]
          exact updateFirst_find? _ _ conn.pending.sessions s' hf
            (by simpa using List.find?_some hf)
  · have hsess : (AuthService.logout_user conn user none ip ua).pending.sessions
        = conn.pending.sessions.map (fun x =>
            if x.user_id == user.id && x.is_revoked == false then
              { x with is_revoked := true }
            else x) := by
      simp [AuthService.logout_user, strTruthy, log_audit_event, DBConn.commit,
        Store.addAudit]
    refine ⟨by rw [hsess]; exact List.length_map _ _, fun hi => ?_⟩
    have hmain : ∀ x : SessionModel,
        (x.user_id ≠ user.id →
          (if x.user_id == user.id && x.is_revoked == false then
            { x with is_revoked := true } else x) = x) ∧
        (x.user_id = user.id →
          (if x.user_id == user.id && x.is_revoked == false then
            { x with is_revoked := true } else x) = { x with is_revoked := true }) := by
      intro x
      constructor
      · intro hne
        have hb : (x.user_id == user.id) = false := by simpa using hne
        simp [hb]
      · intro heq
        have hb : (x.user_id == user.id) = true := by simpa using heq
        cases hr : x.is_revoked
        · simp [hb, hr]
        · have hcond : (x.user_id == user.id && x.is_revoked == false) = false := by
            simp [hb, hr]
          rw [if_neg (by simp [hcond])]
          exact (revoke_already_revoked x hr).symm
    rw [hsess, getD_map_lt _ _ _ _ hi]
    exact ⟨fun hne => (hmain _).1 hne, fun heq => (hmain _).2 heq⟩

/-- C9 witness: logging out with token `"RT"` actually revokes the session
holding `"RT"` while leaving the account's other session untouched;
logging out with no token leaves the other account's session untouched
while the account's own sessions are revoked. -/
theorem C9_witness :
    (AuthService.logout_user (DBConn.fresh demoLogoutStore) demoUser (some "RT")
        none none).pending.sessions.find?
        (fun x => x.user_id == demoUser.id && x.refresh_token == "RT")
      = some { demoSession with is_revoked := true } ∧
    (AuthService.logout_user (DBConn.fresh demoLogoutStore) demoUser (some "RT")
        none none).pending.sessions.getD 1 demoSession = demoSession2 ∧
    (AuthService.logout_user (DBConn.fresh demoLogoutStore) demoUser none
        none none).pending.sessions.getD 2 demoSession = demoSessionOther ∧
    (AuthService.logout_user (DBConn.fresh demoLogoutStore) demoUser none
        none none).pending.sessions.getD 1 demoSession
      = { demoSession2 with is_revoked := true } := by
  refine ⟨?_, ?_, ?_, ?_⟩
  · exact ((C9_logout_revocation_scope (DBConn.fresh demoLogoutStore) demoUser
      none none demoSession 1).1 "RT" (by decide)).2.2 demoSession (by decide)
  · have h := ((C9_logout_revocation_scope (DBConn.fresh demoLogoutStore) demoUser
      none none demoSession 1).1 "RT" (by decide)).2.1 (by decide)
    rcases h with h | ⟨_, h2, _⟩
    · exact h
    · exact absurd h2 (by decide)
  · have h := ((C9_logout_revocation_scope (DBConn.fresh demoLogoutStore) demoUser
      none none demoSession 2).2.2 (by decide)).1 (by decide)
    exact h
  · have h := ((C9_logout_revocation_scope (DBConn.fresh demoLogoutStore) demoUser
      none none demoSession 1).2.2 (by decide)).2 (by decide)
    exact h

theorem applyProfileField_security (u : User) (kv : String × Option String) :
    securityFields (UserService.applyProfileField u kv) = securityFields u := by
  obtain ⟨k, v⟩ := kv
  cases v
  · rfl
  · simp only [UserService.applyProfileField]
    split_ifs <;> rfl

theorem foldl_profile_security (ud : List (String × Option String)) (u : User) :
    securityFields (ud.foldl UserService.applyProfileField u) = securityFields u := by
  induction ud generalizing u with
  | nil => rfl
  | cons kv tl ih => rw [List.foldl_cons, ih, applyProfileField_security]

theorem applyProfileField_keeps_first_name (u : User) (kv : String × Option String)
    (h : ∀ v, kv ≠ ("first_name", some v)) :
    (UserService.applyProfileField u kv).first_name = u.first_name := by
  obtain ⟨k, v⟩ := kv
  cases v with
  | none => rfl
  | some s =>
      have hk : (k == "first_name") = false := by
        have : k ≠ "first_name" := fun he => (h s) (by rw [he])
        simpa using this
      simp only [UserService.applyProfileField, hk]
      split_ifs <;> first | rfl | contradiction

theorem applyProfileField_keeps_last_name (u : User) (kv : String × Option String)
    (h : ∀ v, kv ≠ ("last_name", some v)) :
    (UserService.applyProfileField u kv).last_name = u.last_name := by
  obtain ⟨k, v⟩ := kv
  cases v with
  | none => rfl
  | some s =>
      have hk : (k == "last_name") = false := by
        have : k ≠ "last_name" := fun he => (h s) (by rw [he])
        simpa using this
      simp only [UserService.applyProfileField, hk]
      split_ifs <;> first | rfl | contradiction

theorem applyProfileField_keeps_preferences (u : User) (kv : String × Option String)
    (h : ∀ v, kv ≠ ("preferences", some v)) :
    (UserService.applyProfileField u kv).preferences = u.preferences := by
  obtain ⟨k, v⟩ := kv
  cases v with
  | none => rfl
  | some s =>
      have hk : (k == "preferences") = false := by
        have : k ≠ "preferences" := fun he => (h s) (by rw [he])
        simpa using this
      simp only [UserService.applyProfileField, hk]
      split_ifs <;> first | rfl | contradiction

theorem foldl_profile_keeps_first_name :
    ∀ (ud : List (String × Option String)) (u : User),
      (∀ v, ("first_name", some v) ∉ ud) →
      (ud.foldl UserService.applyProfileField u).first_name = u.first_name
  | [], _, _ => rfl
  | kv :: tl, u, h => by
      rw [List.foldl_cons,
        foldl_profile_keeps_first_name tl _ (fun v hv => h v (List.mem_cons_of_mem _ hv)),
        applyProfileField_keeps_first_name u kv
          (fun v he => h v (by rw [he]; exact List.mem_cons_self _ _))]

theorem foldl_profile_keeps_last_name :
    ∀ (ud : List (String × Option String)) (u : User),
      (∀ v, ("last_name", some v) ∉ ud) →
      (ud.foldl UserService.applyProfileField u).last_name = u.last_name
  | [], _, _ => rfl
  | kv :: tl, u, h => by
      rw [List.foldl_cons,
        foldl_profile_keeps_last_name tl _ (fun v hv => h v (List.mem_cons_of_mem _ hv)),
        applyProfileField_keeps_last_name u kv
          (fun v he => h v (by rw [he]; exact List.mem_cons_self _ _))]

theorem foldl_profile_keeps_preferences :
    ∀ (ud : List (String × Option String)) (u : User),
      (∀ v, ("preferences", some v) ∉ ud) →
      (ud.foldl UserService.applyProfileField u).preferences = u.preferences
  | [], _, _ => rfl
  | kv :: tl, u, h => by
      rw [List.foldl_cons,
        foldl_profile_keeps_preferences tl _ (fun v hv => h v (List.mem_cons_of_mem _ hv)),
        applyProfileField_keeps_preferences u kv
          (fun v he => h v (by rw [he]; exact List.mem_cons_self _ _))]

/-- C10: profile update cannot touch security-relevant state.  Whatever
keys `update_data` contains, `update_user_profile` leaves email, username,
role, is_active, password_hash, failed_login_attempts and locked_until
unchanged; and each of the three mutable fields (first_name, last_name,
preferences) changes only if `update_data` carries that key with a
non-None value. -/
theorem C10_profile_update_frame (conn : DBConn) (user : User)
    (update_data : List (String × Option String)) (ip ua : Option String) :
    securityFields ((UserService.update_user_profile conn user update_data ip ua).1)
      = securityFields user ∧
    ((∀ v, ("first_name", some v) ∉ update_data) →
      ((UserService.update_user_profile conn user update_data ip ua).1).first_name
        = user.first_name) ∧
    ((∀ v, ("last_name", some v) ∉ update_data) →
      ((UserService.update_user_profile conn user update_data ip ua).1).last_name
        = user.last_name) ∧
    ((∀ v, ("preferences", some v) ∉ update_data) →
      ((UserService.update_user_profile conn user update_data ip ua).1).preferences
        = user.preferences) :=
  ⟨foldl_profile_security update_data user,
   fun h => foldl_profile_keeps_first_name update_data user h,
   fun h => foldl_profile_keeps_last_name update_data user h,
   fun h => foldl_profile_keeps_preferences update_data user h⟩

/-- C10 witness: an update naming first_name, role, email, and a None
last_name changes neither the security fields nor last_name/preferences. -/
theorem C10_witness :
    securityFields ((UserService.update_user_profile
        (DBConn.fresh { users := [demoUser], sessions := [], audit_logs := [] }) demoUser
        [("first_name", some "X"), ("role", some "admin"), ("email", some "e@f"),
         ("last_name", none)] none none).1)
      = securityFields demoUser ∧
    ((UserService.update_user_profile
        (DBConn.fresh { users := [demoUser], sessions := [], audit_logs := [] }) demoUser
        [("first_name", some "X"), ("role", some "admin"), ("email", some "e@f"),
         ("last_name", none)] none none).1).last_name = demoUser.last_name := by
  have h := C10_profile_update_frame
    (DBConn.fresh { users := [demoUser], sessions := [], audit_logs := [] }) demoUser
    [("first_name", some "X"), ("role", some "admin"), ("email", some "e@f"),
     ("last_name", none)] none none
  exact ⟨h.1, h.2.2.1 (by intro v hv; simp at hv)⟩

